import Mathlib

/-!
Shallow embedding of `src/driver-detection.py` (Linux GPU & driver detection
utility) and verification of the frozen claims about it.

Modelling conventions:
* The outside world is an `Env`: which binaries resolve on the search path
  (`shutil.which`), and what raw standard output each invoked command
  produces when it exits with code 0 (`none` models a non-zero exit,
  a timeout, or an exception).
* `run_command` mirrors the Python helper: on success it returns the
  stripped standard output, otherwise `None`.
* Python `set`s of strings are modelled as `List String` used only through
  membership; Python dicts with fixed keys become records or functions.
* Every function that invokes external commands additionally returns the
  ordered list of argv vectors it passed to `run_command` (its trace), so
  that claims about which commands run can be stated.
* Python string handling (`str.strip`, `str.split()`, `str.splitlines`,
  `str.lower`, `str.capitalize`, `', '.join`) is embedded for the ASCII
  newline/whitespace repertoire these commands produce.
-/

/-- `""` test on strings, by the underlying character list. -/
def strEmpty (s : String) : Bool := s.data.isEmpty

/-- Python truthiness of `Optional[str]`: `None` and `""` are falsy. -/
def truthy : Option String → Bool
  | none => false
  | some s => !strEmpty s

/-- The whitespace characters relevant to these command outputs
(the repertoire of both Python `str.strip`/`str.split` and `lsmod` text). -/
def isWsChar (c : Char) : Bool :=
  c == ' ' || c == '\t' || c == '\n' || c == '\r'

/-- Python `str.strip()` with no arguments: drop whitespace on both ends. -/
def pyStrip (s : String) : String :=
  String.mk (((s.data.dropWhile isWsChar).reverse.dropWhile isWsChar).reverse)

/-- ASCII lower-casing of one character (`str.lower` on these outputs). -/
def lowerChar (c : Char) : Char :=
  if 65 ≤ c.toNat && c.toNat ≤ 90 then Char.ofNat (c.toNat + 32) else c

/-- ASCII upper-casing of one character (`str.upper` on these outputs). -/
def upperChar (c : Char) : Char :=
  if 97 ≤ c.toNat && c.toNat ≤ 122 then Char.ofNat (c.toNat - 32) else c

/-- `str.lower()`. -/
def pyLower (s : String) : String := String.mk (s.data.map lowerChar)

/-- `str.upper()`. -/
def pyUpper (s : String) : String := String.mk (s.data.map upperChar)

/-- Helper of `splitlines`: collect the current (reversed) line, emitting a
line at every `'\n'`; a final partial line is emitted only if non-empty. -/
def slAux (acc : List Char) : List Char → List (List Char)
  | [] => if acc.isEmpty then [] else [acc.reverse]
  | '\n' :: rest => acc.reverse :: slAux [] rest
  | c :: rest => slAux (c :: acc) rest

/-- `str.splitlines` for `'\n'`-separated text: `""` gives no lines and a
trailing newline does not create a trailing empty line. -/
def splitlines (s : String) : List String :=
  (slAux [] s.data).map String.mk

/-- Helper of `splitWs`: split at whitespace runs, discarding empty pieces. -/
def swAux (acc : List Char) : List Char → List (List Char)
  | [] => if acc.isEmpty then [] else [acc.reverse]
  | c :: rest =>
    if isWsChar c then
      if acc.isEmpty then swAux [] rest else acc.reverse :: swAux [] rest
    else swAux (c :: acc) rest

/-- Python `str.split()` with no arguments: split on whitespace runs,
discarding empty pieces. -/
def splitWs (s : String) : List String :=
  (swAux [] s.data).map String.mk

/-- Helper of `splitBar`: split at every `'|'`, keeping empty pieces
(`str.split('|')`, used for regex alternation). -/
def sbAux (acc : List Char) : List Char → List (List Char)
  | [] => [acc.reverse]
  | '|' :: rest => acc.reverse :: sbAux [] rest
  | c :: rest => sbAux (c :: acc) rest

/-- Split a regex pattern into its `|`-alternation branches. -/
def splitBar (s : String) : List String :=
  (sbAux [] s.data).map String.mk

/-- `', '.join` and friends. -/
def joinSep (sep : String) (l : List String) : String :=
  String.mk (List.flatten (List.intersperse sep.data (l.map String.data)))

/-- Python string `<=` on character lists: lexicographic by code point. -/
def lexLe : List Char → List Char → Bool
  | [], _ => true
  | _ :: _, [] => false
  | a :: as, b :: bs =>
    if a.toNat < b.toNat then true
    else if a.toNat = b.toNat then lexLe as bs
    else false

/-- Python string `<=` (lexicographic by code point), used by `sorted`. -/
def strLe (a b : String) : Bool := lexLe a.data b.data

/-- `sorted` on a list of strings. -/
def pySorted (l : List String) : List String :=
  List.insertionSort (fun a b => strLe a b = true) l

/-- `needle.isPrefix of hay` on character lists (empty needle matches). -/
def startsList : List Char → List Char → Bool
  | [], _ => true
  | _ :: _, [] => false
  | n :: ns, h :: hs => n == h && startsList ns hs

/-- Python `needle in hay` on character lists (substring containment). -/
def subList (needle : List Char) : List Char → Bool
  | [] => startsList needle []
  | c :: hs => startsList needle (c :: hs) || subList needle hs

/-- `needle in hay.lower()` for an already-lower-case needle. -/
def substrCI (hay needle : String) : Bool :=
  subList needle.data (pyLower hay).data

/-- Token of the tiny regex fragment used by the package patterns:
a literal character, `\d` (one digit), or `\d+` (one or more digits). -/
inductive RTok : Type where
  | lit : Char → RTok
  | digit : RTok
  | digits : RTok
deriving DecidableEq

/-- Compile one alternation-free branch of a pattern into tokens. -/
def toks : List Char → List RTok
  | [] => []
  | '\\' :: 'd' :: '+' :: rest => RTok.digits :: toks rest
  | '\\' :: 'd' :: rest => RTok.digit :: toks rest
  | c :: rest => RTok.lit c :: toks rest

/-- Match a token sequence against the front of a character list
(characters first, so the recursion is structural on them). -/
def matchToks : List Char → List RTok → Bool
  | _, [] => true
  | [], _ :: _ => false
  | x :: xs, RTok.lit c :: ts => x == c && matchToks xs ts
  | x :: xs, RTok.digit :: ts => x.isDigit && matchToks xs ts
  | x :: xs, RTok.digits :: ts =>
      x.isDigit && (matchToks xs ts || matchToks xs (RTok.digits :: ts))

/-- Match a token sequence anywhere inside a character list. -/
def searchToks (ts : List RTok) : List Char → Bool
  | [] => matchToks [] ts
  | c :: rest => matchToks (c :: rest) ts || searchToks ts rest

/-- `re.search(pat, text, re.IGNORECASE)` for the pattern fragment in use:
`|`-alternation of branches of literals and `\d+`, all-lower-case patterns. -/
def reSearch (pat text : String) : Bool :=
  (splitBar pat).any (fun b => searchToks (toks b.data) (pyLower text).data)

/-- Python `str.capitalize()`: first character upper-cased, rest lower-cased. -/
def pyCapitalize (s : String) : String :=
  match s.data with
  | [] => ""
  | c :: rest => String.mk (upperChar c :: rest.map lowerChar)

/-- The outside world: which binaries resolve on the search path, and the raw
stdout each command produces when it exits 0 (`none` = failure/timeout). -/
structure Env : Type where
  avail : String → Bool
  exec : List String → Option String

/-- `run_command`: stripped stdout on exit code 0, `None` otherwise. -/
def run_command (env : Env) (command : List String) : Option String :=
  (env.exec command).map pyStrip

-- ---------------- Constants of the source ----------------

/-- `REQUIRED_COMMANDS` (a Python set, modelled by its elements). -/
def REQUIRED_COMMANDS : List String := ["lspci", "lsmod"]

/-- `GPU_DETECTION_COMMANDS`, in order. -/
def GPU_DETECTION_COMMANDS : List (List String) :=
  [["lspci"], ["lshw", "-C", "display"], ["glxinfo", "-B"]]

/-- `NVIDIA_PROPRIETARY_MODULES` (set modelled as a list; membership only). -/
def NVIDIA_PROPRIETARY_MODULES : List String :=
  ["nvidia", "nvidia_drm", "nvidia_modeset", "nvidia_uvm"]

/-- `NVIDIA_OPEN_MODULES`. -/
def NVIDIA_OPEN_MODULES : List String := ["nouveau"]

/-- `INTEL_MODULES`. -/
def INTEL_MODULES : List String := ["i915"]

/-- `PACKAGE_MANAGERS`, in dict insertion order. -/
def PACKAGE_MANAGERS : List (String × List String) :=
  [("dpkg", ["dpkg", "-l"]),
   ("rpm", ["rpm", "-qa"]),
   ("pacman", ["pacman", "-Q"]),
   ("zypper", ["zypper", "se", "-i"])]

/-- `NVIDIA_PACKAGE_PATTERNS` as a lookup function on manager names. -/
def NVIDIA_PACKAGE_PATTERNS : String → String
  | "dpkg" => "nvidia-driver|nvidia-\\d+"
  | "rpm" => "nvidia-driver|kmod-nvidia|akmod-nvidia"
  | "pacman" => "nvidia"
  | "zypper" => "nvidia"
  | _ => ""

/-- `INTEL_PACKAGE_PATTERNS` as a lookup function on manager names. -/
def INTEL_PACKAGE_PATTERNS : String → String
  | "dpkg" => "i965-va-driver|intel-media-va-driver|xserver-xorg-video-intel"
  | "rpm" => "libva-intel-driver|xorg-x11-drv-intel"
  | "pacman" => "libva-intel-driver|xf86-video-intel"
  | "zypper" => "libva-intel-driver|xorg-x11-drv-intel"
  | _ => ""

/-- `cmd[0]`: the binary name of an argv vector (all argv vectors of this
program are non-empty). -/
def cmdBin (cmd : List String) : String := cmd.headD ""

-- ---------------- GPU detection ----------------

/-- Loop body of `detect_gpus`: iterate over the remaining detection
commands with the accumulated vendor flags, skipping unavailable commands,
recording every `run_command` invocation, and breaking out of the loop once
both flags are true (the `break` is reached only after a truthy output).
Returns the final `(nvidia, intel)` flags and the trace of executed argv. -/
def detectLoop (env : Env) (nv it : Bool) : List (List String) → (Bool × Bool) × List (List String)
  | [] => ((nv, it), [])
  | cmd :: rest =>
    if env.avail (cmdBin cmd) then
      match run_command env cmd with
      | some o =>
        if strEmpty o then
          let r := detectLoop env nv it rest
          (r.1, cmd :: r.2)
        else
          let nv2 := nv || substrCI o "nvidia"
          let it2 := it || substrCI o "intel"
          if nv2 && it2 then ((nv2, it2), [cmd])
          else
            let r := detectLoop env nv2 it2 rest
            (r.1, cmd :: r.2)
      | none =>
        let r := detectLoop env nv it rest
        (r.1, cmd :: r.2)
    else detectLoop env nv it rest

/-- `detect_gpus`: presence flags for nvidia and intel, plus the trace. -/
def detect_gpus (env : Env) : (Bool × Bool) × List (List String) :=
  detectLoop env false false GPU_DETECTION_COMMANDS

-- ---------------- Loaded kernel modules ----------------

/-- The set comprehension `{line.split()[0] for line in lines if line}`:
skips empty lines, and `none` models the `IndexError` raised when a
non-empty line has no whitespace-delimited token (`line.split()` empty). -/
def tokenOfLines : List String → Option (List String)
  | [] => some []
  | l :: ls =>
    if strEmpty l then tokenOfLines ls
    else
      match (splitWs l).head? with
      | none => none
      | some t => (tokenOfLines ls).map (fun r => t :: r)

/-- `get_loaded_kernel_modules`: runs `lsmod` once; a falsy result yields the
empty set; otherwise the first token of every non-empty line after the
header. `none` models the uncaught `IndexError` on a whitespace-only line.
The Python set is modelled by the token list, used downstream only through
membership. -/
def get_loaded_kernel_modules (env : Env) : Option (List String) × List (List String) :=
  match run_command env ["lsmod"] with
  | none => (some [], [["lsmod"]])
  | some s =>
    if strEmpty s then (some [], [["lsmod"]])
    else (tokenOfLines ((splitlines s).drop 1), [["lsmod"]])

-- ---------------- Package inspection ----------------

/-- Loop body of `check_packages` over the remaining package managers:
skip a manager whose binary is absent; otherwise run its listing command
(recorded in the trace) and append `"Found via {pm}"` when the output is
truthy and the vendor pattern matches case-insensitively. -/
def pkgLoop (env : Env) (patterns : String → String) : List (String × List String) → List String × List (List String)
  | [] => ([], [])
  | (pm, cmd) :: rest =>
    if env.avail (cmdBin cmd) then
      let r := pkgLoop env patterns rest
      let hit :=
        match run_command env cmd with
        | some o => !strEmpty o && reSearch (patterns pm) o
        | none => false
      ((if hit then ("Found via " ++ pm) :: r.1 else r.1), cmd :: r.2)
    else pkgLoop env patterns rest

/-- `check_packages`: the `"Found via {pm}"` evidence list and the trace. -/
def check_packages (env : Env) (patterns : String → String) : List String × List (List String) :=
  pkgLoop env patterns PACKAGE_MANAGERS

-- ---------------- Driver records ----------------

/-- The per-vendor result dict: `{"installed", "type", "modules_loaded",
"packages"}`. The Intel dict never carries a `"type"` key, modelled as
`none`. -/
structure DriverRecord : Type where
  installed : Bool
  type : Option String
  modules_loaded : List String
  packages : List String
deriving DecidableEq

/-- The guard `is_command_available("nvidia-smi") and run_command(["nvidia-smi"])`:
the binary resolves and `run_command` returns a truthy (non-`None`,
non-empty) result. -/
def nvidiaSmiPasses (env : Env) : Bool :=
  env.avail "nvidia-smi" && truthy (run_command env ["nvidia-smi"])

/-- The commands `check_nvidia_driver` executes for the nvidia-smi probe:
`run_command` is reached only when the binary resolves. -/
def nvidiaSmiTrace (env : Env) : List (List String) :=
  if env.avail "nvidia-smi" then [["nvidia-smi"]] else []

/-- `found_proprietary = NVIDIA_PROPRIETARY_MODULES & loaded_modules`
(set intersection, as the members of the constant set also loaded). -/
def found_proprietary (loaded_modules : List String) : List String :=
  NVIDIA_PROPRIETARY_MODULES.filter (fun m => decide (m ∈ loaded_modules))

/-- `found_nouveau = NVIDIA_OPEN_MODULES & loaded_modules`. -/
def found_nouveau (loaded_modules : List String) : List String :=
  NVIDIA_OPEN_MODULES.filter (fun m => decide (m ∈ loaded_modules))

/-- `found_modules = INTEL_MODULES & loaded_modules`. -/
def found_intel (loaded_modules : List String) : List String :=
  INTEL_MODULES.filter (fun m => decide (m ∈ loaded_modules))

/-- `check_nvidia_driver`, with its trace of executed commands.
`dict.update` is modelled by record update; `sorted` by `pySorted`. -/
def check_nvidia_driver (loaded_modules : List String) (env : Env) : DriverRecord × List (List String) :=
  let info1 : DriverRecord :=
    if found_proprietary loaded_modules ≠ [] then
      ⟨true, some "proprietary NVIDIA", pySorted (found_proprietary loaded_modules), []⟩
    else if found_nouveau loaded_modules ≠ [] then
      ⟨true, some "nouveau (open-source)", pySorted (found_nouveau loaded_modules), []⟩
    else ⟨false, none, [], []⟩
  let info2 :=
    if nvidiaSmiPasses env then
      { info1 with installed := true, type := some "proprietary NVIDIA" }
    else info1
  if info2.installed then (info2, nvidiaSmiTrace env)
  else
    let pk := check_packages env NVIDIA_PACKAGE_PATTERNS
    (if pk.1 ≠ [] then
        { info2 with installed := true, type := some "proprietary NVIDIA (inactive)", packages := pk.1 }
      else info2,
     nvidiaSmiTrace env ++ pk.2)

/-- `check_intel_driver`, with its trace of executed commands. The package
check always runs and merges into (rather than replaces) module evidence. -/
def check_intel_driver (loaded_modules : List String) (env : Env) : DriverRecord × List (List String) :=
  let info1 : DriverRecord :=
    if found_intel loaded_modules ≠ [] then
      ⟨true, none, pySorted (found_intel loaded_modules), []⟩
    else ⟨false, none, [], []⟩
  let pk := check_packages env INTEL_PACKAGE_PATTERNS
  (if pk.1 ≠ [] then { info1 with installed := true, packages := pk.1 } else info1, pk.2)

-- ---------------- Output ----------------

/-- `print_results`, as the list of printed lines (colour decoration is
identity when colorama is absent and is not part of the data contract). -/
def print_results (gpu_detected : Bool) (driver_info : DriverRecord) (gpu_type : String) : List String :=
  let gpu_name := pyUpper gpu_type
  ("----- " ++ gpu_name ++ " GPU -----") ::
    (if !gpu_detected then
      ["Detection: " ++ gpu_name ++ " hardware not found."]
    else
      ("Detection: " ++ gpu_name ++ " hardware found.") ::
        (if driver_info.installed then
          ("Driver Status: " ++
              pyCapitalize (driver_info.type.getD ("open-source " ++ gpu_name)) ++
              " driver detected.") ::
            ((if driver_info.modules_loaded.isEmpty then []
              else ["  -> Loaded Modules: " ++ joinSep ", " driver_info.modules_loaded]) ++
             (if driver_info.packages.isEmpty then []
              else ["  -> Detected Packages: " ++ joinSep ", " driver_info.packages]))
        else
          ["Driver Status: No active " ++ gpu_name ++ " driver detected.",
           "  -> Consider installing the appropriate drivers for your distribution."]))

/-- The title printed first (the leading newline of the Python string). -/
def TITLE_LINE : String := "\nLinux GPU & Driver Detection Utility"

/-- The `"=" * 40` separator. -/
def EQ_LINE : String := String.mk (List.replicate 40 '=')

/-- `main`, as the list of strings passed to `print` and the combined trace
of executed commands; `none` models an uncaught exception from the lsmod
parse. The required-commands probe only calls `shutil.which`, so it
executes nothing; when it fails the program prints the abort message and
exits 1. -/
def mainResult (env : Env) : Option (List String × List (List String)) :=
  if REQUIRED_COMMANDS.all env.avail then
    let d := detect_gpus env
    let g := get_loaded_kernel_modules env
    match g.1 with
    | none => none
    | some loaded_modules =>
      let nvPart :=
        if d.1.1 then
          let r := check_nvidia_driver loaded_modules env
          (print_results true r.1 "nvidia" ++ [""], r.2)
        else ([], [])
      let itPart :=
        if d.1.2 then
          let r := check_intel_driver loaded_modules env
          (print_results true r.1 "intel" ++ [""], r.2)
        else ([], [])
      let warn :=
        if d.1.1 || d.1.2 then []
        else
          ["Warning: Could not detect any supported GPU hardware (NVIDIA, Intel).",
           "This may be due to missing optional utilities (lshw, glxinfo) or an unsupported GPU."]
      some ([TITLE_LINE, EQ_LINE, ""] ++ nvPart.1 ++ itPart.1 ++ warn,
            d.2 ++ g.2 ++ nvPart.2 ++ itPart.2)
  else
    some ([TITLE_LINE, EQ_LINE, "\nAborting: Missing one or more required system utilities."], [])

-- ---------------- Helper lemmas ----------------

lemma filterMem_eq_nil (mods loaded : List String) :
    mods.filter (fun m => decide (m ∈ loaded)) = [] ↔ ∀ m ∈ mods, m ∉ loaded := by
  rw [List.filter_eq_nil_iff]
  simp

lemma filterMem_ne_nil (mods loaded : List String) :
    mods.filter (fun m => decide (m ∈ loaded)) ≠ [] ↔ ∃ m ∈ mods, m ∈ loaded := by
  rw [Ne, filterMem_eq_nil]
  push_neg
  rfl

/-- An environment with no tools on the path at all. -/
def envEmpty : Env := ⟨fun _ => false, fun _ => none⟩

/-- An environment where only `nvidia-smi` resolves, and it succeeds. -/
def envSmiOk : Env :=
  ⟨fun s => s == "nvidia-smi",
   fun c => if c == ["nvidia-smi"] then some "NVIDIA-SMI 535.104" else none⟩

/-- An environment where only `dpkg` resolves and its listing contains an
Intel driver package. -/
def envDpkgIntel : Env :=
  ⟨fun s => s == "dpkg",
   fun c => if c == ["dpkg", "-l"] then some "ii intel-media-va-driver 21.1" else none⟩

-- ---------------- Claims ----------------

/-- C10: whenever `check_nvidia_driver` returns a record with
`installed = false`, the record carries no residual evidence: its type is
`None`, its loaded-module list is empty and its package list is empty. -/
theorem nvidia_not_installed_no_evidence (loaded : List String) (env : Env)
    (h : (check_nvidia_driver loaded env).1.installed = false) :
    (check_nvidia_driver loaded env).1.type = none ∧
      (check_nvidia_driver loaded env).1.modules_loaded = [] ∧
      (check_nvidia_driver loaded env).1.packages = [] := by
  by_cases hp : found_proprietary loaded = [] <;>
    by_cases hn : found_nouveau loaded = [] <;>
      by_cases hs : nvidiaSmiPasses env = true <;>
        by_cases hk : (check_packages env NVIDIA_PACKAGE_PATTERNS).1 = [] <;>
          simp_all [check_nvidia_driver]

/-- Witness for C10 at a concrete input with no evidence at all. -/
theorem nvidia_not_installed_no_evidence_witness :
    (check_nvidia_driver [] envEmpty).1.installed = false ∧
      (check_nvidia_driver [] envEmpty).1.type = none :=
  ⟨by decide, (nvidia_not_installed_no_evidence [] envEmpty (by decide)).1⟩

/-- C1: a driver record is classified installed only if a vendor-matching
kernel module is loaded, the nvidia-smi probe passes (NVIDIA only), or a
package manager's listing matches the vendor's package pattern; when none
of these evidence sources is present, both checkers return
`installed = false`. -/
theorem installed_requires_evidence (loaded : List String) (env : Env) :
    ((check_nvidia_driver loaded env).1.installed = true →
        (∃ m ∈ NVIDIA_PROPRIETARY_MODULES ++ NVIDIA_OPEN_MODULES, m ∈ loaded) ∨
          nvidiaSmiPasses env = true ∨
          (check_packages env NVIDIA_PACKAGE_PATTERNS).1 ≠ []) ∧
      ((check_intel_driver loaded env).1.installed = true →
        (∃ m ∈ INTEL_MODULES, m ∈ loaded) ∨
          (check_packages env INTEL_PACKAGE_PATTERNS).1 ≠ []) ∧
      ((∀ m ∈ NVIDIA_PROPRIETARY_MODULES ++ NVIDIA_OPEN_MODULES, m ∉ loaded) →
        nvidiaSmiPasses env = false →
        (check_packages env NVIDIA_PACKAGE_PATTERNS).1 = [] →
        (check_nvidia_driver loaded env).1.installed = false) ∧
      ((∀ m ∈ INTEL_MODULES, m ∉ loaded) →
        (check_packages env INTEL_PACKAGE_PATTERNS).1 = [] →
        (check_intel_driver loaded env).1.installed = false) := by
  refine ⟨?_, ?_, ?_, ?_⟩
  · intro h
    by_cases hp : found_proprietary loaded = []
    · by_cases hn : found_nouveau loaded = []
      · by_cases hs : nvidiaSmiPasses env = true
        · exact Or.inr (Or.inl hs)
        · by_cases hk : (check_packages env NVIDIA_PACKAGE_PATTERNS).1 = []
          · exfalso
            simp [check_nvidia_driver, hp, hn, hs, hk] at h
          · exact Or.inr (Or.inr hk)
      · obtain ⟨m, hm, hml⟩ := (filterMem_ne_nil _ _).1 hn
        exact Or.inl ⟨m, by simp [List.mem_append]; right; exact hm, hml⟩
    · obtain ⟨m, hm, hml⟩ := (filterMem_ne_nil _ _).1
        (by simpa [found_proprietary] using
          (show found_proprietary loaded ≠ [] from hp))
      exact Or.inl ⟨m, by simp [List.mem_append]; left; exact hm, hml⟩
  · intro h
    by_cases hi : found_intel loaded = []
    · by_cases hk : (check_packages env INTEL_PACKAGE_PATTERNS).1 = []
      · exfalso
        simp [check_intel_driver, hi, hk] at h
      · exact Or.inr hk
    · exact Or.inl ((filterMem_ne_nil _ _).1 hi)
  · intro hmod hs hk
    have hp : found_proprietary loaded = [] := by
      rw [found_proprietary, filterMem_eq_nil]
      intro m hm
      exact hmod m (by simp [List.mem_append]; left; exact hm)
    have hn : found_nouveau loaded = [] := by
      rw [found_nouveau, filterMem_eq_nil]
      intro m hm
      exact hmod m (by simp [List.mem_append]; right; exact hm)
    simp [check_nvidia_driver, hp, hn, hs, hk]
  · intro hmod hk
    have hi : found_intel loaded = [] := by
      rw [found_intel, filterMem_eq_nil]
      exact hmod
    simp [check_intel_driver, hi, hk]

/-- Witness for C1: with nothing loaded and no tools, neither vendor is
classified installed. -/
theorem installed_requires_evidence_witness :
    (check_nvidia_driver [] envEmpty).1.installed = false ∧
      (check_intel_driver [] envEmpty).1.installed = false :=
  ⟨(installed_requires_evidence [] envEmpty).2.2.1 (by decide) (by decide) (by decide),
   (installed_requires_evidence [] envEmpty).2.2.2 (by decide) (by decide)⟩

/-- C3: with nouveau loaded, no proprietary NVIDIA module and a failing
nvidia-smi probe, the record is installed with the nouveau (open-source)
label; and whenever the nvidia-smi probe passes, installed is forced true
with the proprietary label, whatever is loaded. -/
theorem nouveau_and_smi_override (loaded : List String) (env : Env) :
    (("nouveau" ∈ loaded →
        (∀ m ∈ NVIDIA_PROPRIETARY_MODULES, m ∉ loaded) →
        nvidiaSmiPasses env = false →
        (check_nvidia_driver loaded env).1.installed = true ∧
          (check_nvidia_driver loaded env).1.type = some "nouveau (open-source)" ∧
          (check_nvidia_driver loaded env).1.modules_loaded = ["nouveau"]) ∧
      (nvidiaSmiPasses env = true →
        (check_nvidia_driver loaded env).1.installed = true ∧
          (check_nvidia_driver loaded env).1.type = some "proprietary NVIDIA")) := by
  constructor
  · intro h1 h2 h3
    have hp : found_proprietary loaded = [] := by
      rw [found_proprietary, filterMem_eq_nil]
      exact h2
    have hn : found_nouveau loaded = ["nouveau"] := by
      simp [found_nouveau, NVIDIA_OPEN_MODULES, h1]
    simp [check_nvidia_driver, hp, hn, h3,
      (by decide : pySorted ["nouveau"] = ["nouveau"])]
  · intro hs
    by_cases hp : found_proprietary loaded = [] <;>
      by_cases hn : found_nouveau loaded = [] <;>
        simp [check_nvidia_driver, hp, hn, hs]

/-- Witness for C3 at concrete inputs for both conjuncts. -/
theorem nouveau_and_smi_override_witness :
    ((check_nvidia_driver ["nouveau"] envEmpty).1.type = some "nouveau (open-source)" ∧
      (check_nvidia_driver ["nouveau"] envSmiOk).1.type = some "proprietary NVIDIA") :=
  ⟨((nouveau_and_smi_override ["nouveau"] envEmpty).1 (by decide) (by decide) (by decide)).2.1,
   ((nouveau_and_smi_override ["nouveau"] envSmiOk).2 (by decide)).2⟩

/-- C5: for Intel, a loaded i915 module sets installed, a package match
independently sets installed, and when both kinds of evidence hold the
record keeps both the module list and the package evidence. -/
theorem intel_merges_evidence (loaded : List String) (env : Env) :
    (("i915" ∈ loaded →
        (check_intel_driver loaded env).1.installed = true ∧
          (check_intel_driver loaded env).1.modules_loaded = ["i915"]) ∧
      ((check_packages env INTEL_PACKAGE_PATTERNS).1 ≠ [] →
        (check_intel_driver loaded env).1.installed = true ∧
          (check_intel_driver loaded env).1.packages =
            (check_packages env INTEL_PACKAGE_PATTERNS).1) ∧
      ("i915" ∈ loaded →
        (check_packages env INTEL_PACKAGE_PATTERNS).1 ≠ [] →
        (check_intel_driver loaded env).1 =
          ⟨true, none, ["i915"], (check_packages env INTEL_PACKAGE_PATTERNS).1⟩)) := by
  refine ⟨?_, ?_, ?_⟩
  · intro h
    have hi : found_intel loaded = ["i915"] := by
      simp [found_intel, INTEL_MODULES, h]
    by_cases hk : (check_packages env INTEL_PACKAGE_PATTERNS).1 = [] <;>
      simp [check_intel_driver, hi, hk, (by decide : pySorted ["i915"] = ["i915"])]
  · intro hk
    by_cases hi : found_intel loaded = [] <;>
      simp [check_intel_driver, hi, hk]
  · intro h hk
    have hi : found_intel loaded = ["i915"] := by
      simp [found_intel, INTEL_MODULES, h]
    simp [check_intel_driver, hi, hk, (by decide : pySorted ["i915"] = ["i915"])]

/-- Witness for C5: both evidence kinds present and both kept. -/
theorem intel_merges_evidence_witness :
    (check_intel_driver ["i915"] envDpkgIntel).1 =
      ⟨true, none, ["i915"], ["Found via dpkg"]⟩ := by
  have h := (intel_merges_evidence ["i915"] envDpkgIntel).2.2 (by decide) (by decide)
  exact h.trans (by decide)

/-- An environment where only `dpkg` resolves and its listing contains an
NVIDIA driver package. -/
def envDpkgNvidia : Env :=
  ⟨fun s => s == "dpkg",
   fun c => if c == ["dpkg", "-l"] then some "ii nvidia-driver-535 amd64" else none⟩

/-- C4: package evidence is consulted only when the record is still not
installed after the module and nvidia-smi checks; then a package match sets
installed with the inactive label and records the `Found via` strings;
conversely, when a module or nvidia-smi check already set installed, the
trace shows no package-manager command was executed. -/
theorem nvidia_package_fallback (loaded : List String) (env : Env) :
    ((found_proprietary loaded ≠ [] ∨ found_nouveau loaded ≠ [] ∨ nvidiaSmiPasses env = true) →
        (check_nvidia_driver loaded env).1.installed = true ∧
          (check_nvidia_driver loaded env).1.packages = [] ∧
          (check_nvidia_driver loaded env).2 = nvidiaSmiTrace env) ∧
      (found_proprietary loaded = [] → found_nouveau loaded = [] →
        nvidiaSmiPasses env = false →
        (check_packages env NVIDIA_PACKAGE_PATTERNS).1 ≠ [] →
        (check_nvidia_driver loaded env).1.installed = true ∧
          (check_nvidia_driver loaded env).1.type = some "proprietary NVIDIA (inactive)" ∧
          (check_nvidia_driver loaded env).1.packages =
            (check_packages env NVIDIA_PACKAGE_PATTERNS).1 ∧
          (check_nvidia_driver loaded env).2 =
            nvidiaSmiTrace env ++ (check_packages env NVIDIA_PACKAGE_PATTERNS).2) := by
  constructor
  · intro h
    by_cases hp : found_proprietary loaded = [] <;>
      by_cases hn : found_nouveau loaded = [] <;>
        by_cases hs : nvidiaSmiPasses env = true <;>
          rcases h with h | h | h <;>
            simp_all [check_nvidia_driver]
  · intro hp hn hs hk
    simp [check_nvidia_driver, hp, hn, hs, hk]

/-- Witness for C4: module evidence suppresses the package query, and the
pure-package case yields the inactive label. -/
theorem nvidia_package_fallback_witness :
    ((check_nvidia_driver ["nvidia"] envEmpty).1.packages = [] ∧
      (check_nvidia_driver [] envDpkgNvidia).1.type = some "proprietary NVIDIA (inactive)") :=
  ⟨((nvidia_package_fallback ["nvidia"] envEmpty).1 (Or.inl (by decide))).2.1,
   ((nvidia_package_fallback [] envDpkgNvidia).2 (by decide) (by decide) (by decide)
      (by decide)).2.1⟩

-- ---------------- Order lemmas for `pySorted` ----------------

lemma lexLe_total : ∀ as bs : List Char, lexLe as bs = true ∨ lexLe bs as = true := by
  intro as
  induction as with
  | nil => intro bs; left; rfl
  | cons a as ih =>
    intro bs
    cases bs with
    | nil => right; rfl
    | cons b bs =>
      by_cases h1 : a.toNat < b.toNat
      · left; simp [lexLe, h1]
      · by_cases h2 : a.toNat = b.toNat
        · rcases ih bs with h | h
          · left; simp [lexLe, h1, h2, h]
          · right
            have hba : ¬b.toNat < a.toNat := by omega
            have hbe : b.toNat = a.toNat := h2.symm
            simp [lexLe, hba, hbe, h]
        · right
          have : b.toNat < a.toNat := by omega
          simp [lexLe, this]

lemma lexLe_trans :
    ∀ as bs cs : List Char, lexLe as bs = true → lexLe bs cs = true → lexLe as cs = true := by
  intro as
  induction as with
  | nil => intro bs cs _ _; rfl
  | cons a as ih =>
    intro bs cs h1 h2
    cases bs with
    | nil => simp [lexLe] at h1
    | cons b bs =>
      cases cs with
      | nil => simp [lexLe] at h2
      | cons c cs =>
        by_cases hab : a.toNat < b.toNat <;> by_cases hbc : b.toNat < c.toNat
        · simp [lexLe, show a.toNat < c.toNat by omega]
        · by_cases hbc2 : b.toNat = c.toNat
          · simp [lexLe, show a.toNat < c.toNat by omega]
          · simp [lexLe, hbc, hbc2] at h2
        · by_cases hab2 : a.toNat = b.toNat
          · simp [lexLe, show a.toNat < c.toNat by omega]
          · simp [lexLe, hab, hab2] at h1
        · by_cases hab2 : a.toNat = b.toNat
          · by_cases hbc2 : b.toNat = c.toNat
            · simp only [lexLe, hab, hab2, if_neg, if_pos, if_true] at h1
              simp only [lexLe, hbc, hbc2, if_neg, if_pos, if_true] at h2
              have hr := ih bs cs (by simpa [lexLe, hab, hab2] using h1)
                (by simpa [lexLe, hbc, hbc2] using h2)
              simp [lexLe, show ¬a.toNat < c.toNat by omega,
                show a.toNat = c.toNat by omega, hr]
            · simp [lexLe, hbc, hbc2] at h2
          · simp [lexLe, hab, hab2] at h1

instance : IsTotal String (fun a b => strLe a b = true) :=
  ⟨fun a b => lexLe_total a.data b.data⟩

instance : IsTrans String (fun a b => strLe a b = true) :=
  ⟨fun a b c => lexLe_trans a.data b.data c.data⟩

lemma pySorted_pairwise (l : List String) :
    (pySorted l).Pairwise (fun a b => strLe a b = true) :=
  List.sorted_insertionSort _ l

lemma pySorted_perm (l : List String) : (pySorted l).Perm l :=
  List.perm_insertionSort _ l

lemma pySorted_mem (l : List String) (m : String) : m ∈ pySorted l ↔ m ∈ l :=
  (pySorted_perm l).mem_iff

lemma pySorted_nodup (l : List String) (h : l.Nodup) : (pySorted l).Nodup :=
  ((pySorted_perm l).nodup_iff).2 h

/-- The environment of the C2 scenario: `lsmod` reports the nvidia and
nvidia_drm modules. -/
def envScenario2 : Env :=
  ⟨fun s => s == "lsmod",
   fun c =>
     if c == ["lsmod"] then some "Module Size Used by\nnvidia 123 0\nnvidia_drm 10 0\n"
     else none⟩

/-- C2: any loaded proprietary NVIDIA module yields installed with the
proprietary label and `modules_loaded` equal to the intersection with the
proprietary-module set, sorted and without duplicates; and the concrete
lsmod scenario parses to exactly the two modules and the stated record. -/
theorem proprietary_modules_detected (loaded : List String) (env : Env) :
    ((∃ m ∈ NVIDIA_PROPRIETARY_MODULES, m ∈ loaded) →
        (check_nvidia_driver loaded env).1.installed = true ∧
          (check_nvidia_driver loaded env).1.type = some "proprietary NVIDIA" ∧
          List.Pairwise (fun a b => strLe a b = true)
            (check_nvidia_driver loaded env).1.modules_loaded ∧
          (check_nvidia_driver loaded env).1.modules_loaded.Nodup ∧
          (∀ m, m ∈ (check_nvidia_driver loaded env).1.modules_loaded ↔
            m ∈ NVIDIA_PROPRIETARY_MODULES ∧ m ∈ loaded)) ∧
      ((get_loaded_kernel_modules envScenario2).1 = some ["nvidia", "nvidia_drm"] ∧
        (check_nvidia_driver ["nvidia", "nvidia_drm"] envScenario2).1 =
          ⟨true, some "proprietary NVIDIA", ["nvidia", "nvidia_drm"], []⟩) := by
  constructor
  · intro h
    have hp : found_proprietary loaded ≠ [] := by
      rw [found_proprietary, filterMem_ne_nil]
      exact h
    have hrec : (check_nvidia_driver loaded env).1 =
        ⟨true, some "proprietary NVIDIA", pySorted (found_proprietary loaded), []⟩ := by
      by_cases hs : nvidiaSmiPasses env = true <;>
        simp [check_nvidia_driver, hp, hs]
    rw [hrec]
    refine ⟨rfl, rfl, pySorted_pairwise _, pySorted_nodup _ ?_, ?_⟩
    · exact List.Nodup.filter _ (by decide)
    · intro m
      rw [pySorted_mem]
      simp [found_proprietary, List.mem_filter]
  · exact ⟨by decide, by decide⟩

/-- Witness for C2 at a concrete loaded-module list. -/
theorem proprietary_modules_detected_witness :
    (check_nvidia_driver ["nvidia_uvm", "nvidia"] envEmpty).1.installed = true ∧
      (check_nvidia_driver ["nvidia_uvm", "nvidia"] envEmpty).1.type =
        some "proprietary NVIDIA" :=
  ⟨((proprietary_modules_detected ["nvidia_uvm", "nvidia"] envEmpty).1 (by decide)).1,
   ((proprietary_modules_detected ["nvidia_uvm", "nvidia"] envEmpty).1 (by decide)).2.1⟩

-- ---------------- Lemmas on the lsmod parse ----------------

lemma strEmpty_iff (s : String) : strEmpty s = true ↔ s = "" := by
  cases s with
  | mk data =>
    simp only [strEmpty, List.isEmpty_iff, String.ext_iff]

lemma tokenOfLines_eq_none_iff (ls : List String) :
    tokenOfLines ls = none ↔ ∃ l ∈ ls, l ≠ "" ∧ splitWs l = [] := by
  induction ls with
  | nil => simp [tokenOfLines]
  | cons l ls ih =>
    by_cases he : strEmpty l = true
    · have hl : l = "" := (strEmpty_iff l).1 he
      subst hl
      rw [show tokenOfLines ("" :: ls) = tokenOfLines ls from by simp [tokenOfLines, he], ih]
      constructor
      · rintro ⟨x, hx, h1, h2⟩
        exact ⟨x, List.mem_cons_of_mem _ hx, h1, h2⟩
      · rintro ⟨x, hx, h1, h2⟩
        rcases List.mem_cons.1 hx with rfl | hx'
        · exact absurd rfl h1
        · exact ⟨x, hx', h1, h2⟩
    · have hl : l ≠ "" := fun h => he (by rw [h]; decide)
      cases hsw : (splitWs l).head? with
      | none =>
        have hnil : splitWs l = [] := by
          cases hsp : splitWs l with
          | nil => rfl
          | cons a as => rw [hsp] at hsw; simp at hsw
        simp only [tokenOfLines, he, if_neg, Bool.false_eq_true, not_false_iff, ite_false, hsw]
        constructor
        · intro _
          exact ⟨l, by simp, hl, hnil⟩
        · intro _
          trivial
      | some t =>
        have hne : splitWs l ≠ [] := by
          intro hc
          rw [hc] at hsw
          simp at hsw
        simp [tokenOfLines, he, hsw, Option.map_eq_none', ih, hl, hne]

lemma tokenOfLines_eq_some (ls : List String) (h : ∀ l ∈ ls, l ≠ "" → splitWs l ≠ []) :
    tokenOfLines ls = some (ls.filterMap (fun l => (splitWs l).head?)) := by
  induction ls with
  | nil => simp [tokenOfLines]
  | cons l ls ih =>
    have hrest := ih (fun x hx => h x (List.mem_cons_of_mem _ hx))
    by_cases he : strEmpty l = true
    · have hl : l = "" := (strEmpty_iff l).1 he
      have hsw : splitWs l = [] := by rw [hl]; decide
      simp [tokenOfLines, he, hrest, List.filterMap_cons, hsw]
    · have hl : l ≠ "" := fun hx => he (by rw [hx]; decide)
      have hne : splitWs l ≠ [] := h l (by simp) hl
      obtain ⟨t, ts, hts⟩ : ∃ t ts, splitWs l = t :: ts := by
        cases hsp : splitWs l with
        | nil => exact absurd hsp hne
        | cons a as => exact ⟨a, as, rfl⟩
      simp [tokenOfLines, he, hts, hrest, List.filterMap_cons]

/-- The environment of the C7 counterexample: the `lsmod` output contains a
line consisting of a single space. -/
def envC7 : Env :=
  ⟨fun s => s == "lsmod",
   fun c => if c == ["lsmod"] then some "Module Size Used by\n \nnvidia 1 0" else none⟩

/-- C7 counterexample: on an lsmod output with an interior whitespace-only
line, the parse does not return a set at all — `line.split()[0]` raises
`IndexError` (modelled by `none`), so the function is not total. -/
theorem lsmod_parse_counterexample :
    (get_loaded_kernel_modules envC7).1 = none := by decide

/-- C7 (amended): a falsy lsmod result yields the empty set; on a truthy
result the parse skips the header line and takes the first
whitespace-delimited token of each remaining non-empty line, and it errors
exactly when some remaining line is non-empty but all-whitespace. -/
theorem lsmod_parse_behaviour (env : Env) :
    (truthy (run_command env ["lsmod"]) = false →
        (get_loaded_kernel_modules env).1 = some []) ∧
      (∀ s, run_command env ["lsmod"] = some s → s ≠ "" →
        (((get_loaded_kernel_modules env).1 = none ↔
            ∃ l ∈ (splitlines s).drop 1, l ≠ "" ∧ splitWs l = []) ∧
          ((∀ l ∈ (splitlines s).drop 1, l ≠ "" → splitWs l ≠ []) →
            (get_loaded_kernel_modules env).1 =
              some (((splitlines s).drop 1).filterMap (fun l => (splitWs l).head?))))) := by
  constructor
  · intro h
    cases hr : run_command env ["lsmod"] with
    | none => simp [get_loaded_kernel_modules, hr]
    | some s =>
      rw [hr] at h
      simp only [truthy, Bool.not_eq_false'] at h
      simp [get_loaded_kernel_modules, hr, h]
  · intro s hs hne
    have he : ¬strEmpty s = true := fun hc => hne ((strEmpty_iff s).1 hc)
    constructor
    · rw [show (get_loaded_kernel_modules env).1 = tokenOfLines ((splitlines s).drop 1) by
        simp [get_loaded_kernel_modules, hs, he]]
      exact tokenOfLines_eq_none_iff _
    · intro hall
      rw [show (get_loaded_kernel_modules env).1 = tokenOfLines ((splitlines s).drop 1) by
        simp [get_loaded_kernel_modules, hs, he]]
      exact tokenOfLines_eq_some _ hall

/-- Witness for C7 (amended) on the concrete two-module lsmod output. -/
theorem lsmod_parse_behaviour_witness :
    (get_loaded_kernel_modules envScenario2).1 = some ["nvidia", "nvidia_drm"] := by
  have h := ((lsmod_parse_behaviour envScenario2).2
      "Module Size Used by\nnvidia 123 0\nnvidia_drm 10 0" (by decide) (by decide)).2
      (by decide)
  exact h.trans (by decide)

-- ---------------- Detection-loop specification ----------------

/-- The detection commands whose binary resolves, in the fixed order. -/
def availDetectCmds (env : Env) : List (List String) :=
  GPU_DETECTION_COMMANDS.filter (fun c => env.avail (cmdBin c))

/-- One executed command contributes vendor evidence: it produced a truthy
output whose lower-cased text contains the vendor substring. -/
def cmdHasVendor (env : Env) (v : String) (cmd : List String) : Bool :=
  match run_command env cmd with
  | some o => !strEmpty o && substrCI o v
  | none => false

/-- Some command of the list contributes evidence for the vendor. -/
def vendorFlag (env : Env) (v : String) (l : List (List String)) : Bool :=
  l.any (cmdHasVendor env v)


lemma detectLoop_spec (env : Env) :
    ∀ (cmds : List (List String)) (nv it : Bool), (nv && it) = false →
      ∃ k, k ≤ (cmds.filter (fun c => env.avail (cmdBin c))).length ∧
        (detectLoop env nv it cmds).2 =
          (cmds.filter (fun c => env.avail (cmdBin c))).take k ∧
        (detectLoop env nv it cmds).1.1 =
          (nv || vendorFlag env "nvidia" ((detectLoop env nv it cmds).2)) ∧
        (detectLoop env nv it cmds).1.2 =
          (it || vendorFlag env "intel" ((detectLoop env nv it cmds).2)) ∧
        (∀ j, j < k →
          ((nv || vendorFlag env "nvidia"
              ((cmds.filter (fun c => env.avail (cmdBin c))).take j)) &&
            (it || vendorFlag env "intel"
              ((cmds.filter (fun c => env.avail (cmdBin c))).take j))) = false) ∧
        (k < (cmds.filter (fun c => env.avail (cmdBin c))).length →
          ((detectLoop env nv it cmds).1.1 && (detectLoop env nv it cmds).1.2) = true) := by
  intro cmds
  induction cmds with
  | nil =>
    intro nv it h
    refine ⟨0, by simp, by simp [detectLoop], ?_, ?_, by omega, by simp⟩ <;>
      simp [detectLoop, vendorFlag]
  | cons cmd rest ih =>
    intro nv it h
    by_cases ha : env.avail (cmdBin cmd) = true
    · have hfil : (cmd :: rest).filter (fun c => env.avail (cmdBin c)) =
          cmd :: rest.filter (fun c => env.avail (cmdBin c)) := by
        simp [List.filter_cons, ha]
      cases hr : run_command env cmd with
      | none =>
        have hcn : cmdHasVendor env "nvidia" cmd = false := by simp [cmdHasVendor, hr]
        have hci : cmdHasVendor env "intel" cmd = false := by simp [cmdHasVendor, hr]
        have hd : detectLoop env nv it (cmd :: rest) =
            ((detectLoop env nv it rest).1, cmd :: (detectLoop env nv it rest).2) := by
          simp [detectLoop, ha, hr]
        obtain ⟨k, h1, h2, h3, h4, h5, h6⟩ := ih nv it h
        refine ⟨k + 1, ?_, ?_, ?_, ?_, ?_, ?_⟩
        · rw [hfil]
          exact Nat.succ_le_succ h1
        · rw [hd, hfil, List.take_succ_cons, h2]
        · rw [hd, h3]
          simp [vendorFlag, hcn]
        · rw [hd, h4]
          simp [vendorFlag, hci]
        · intro j hj
          cases j with
          | zero => simpa [vendorFlag] using h
          | succ j' =>
            have h5' := h5 j' (by omega)
            rw [hfil, List.take_succ_cons]
            simpa [vendorFlag, hcn, hci] using h5'
        · intro hk
          rw [hfil] at hk
          simp only [List.length_cons] at hk
          rw [hd]
          exact h6 (by omega)
      | some o =>
        by_cases ho : strEmpty o = true
        · have hcn : cmdHasVendor env "nvidia" cmd = false := by simp [cmdHasVendor, hr, ho]
          have hci : cmdHasVendor env "intel" cmd = false := by simp [cmdHasVendor, hr, ho]
          have hd : detectLoop env nv it (cmd :: rest) =
              ((detectLoop env nv it rest).1, cmd :: (detectLoop env nv it rest).2) := by
            simp [detectLoop, ha, hr, ho]
          obtain ⟨k, h1, h2, h3, h4, h5, h6⟩ := ih nv it h
          refine ⟨k + 1, ?_, ?_, ?_, ?_, ?_, ?_⟩
          · rw [hfil]
            exact Nat.succ_le_succ h1
          · rw [hd, hfil, List.take_succ_cons, h2]
          · rw [hd, h3]
            simp [vendorFlag, hcn]
          · rw [hd, h4]
            simp [vendorFlag, hci]
          · intro j hj
            cases j with
            | zero => simpa [vendorFlag] using h
            | succ j' =>
              have h5' := h5 j' (by omega)
              rw [hfil, List.take_succ_cons]
              simpa [vendorFlag, hcn, hci] using h5'
          · intro hk
            rw [hfil] at hk
            simp only [List.length_cons] at hk
            rw [hd]
            exact h6 (by omega)
        · have hcn : cmdHasVendor env "nvidia" cmd = substrCI o "nvidia" := by
            simp [cmdHasVendor, hr, ho]
          have hci : cmdHasVendor env "intel" cmd = substrCI o "intel" := by
            simp [cmdHasVendor, hr, ho]
          by_cases hb : ((nv || substrCI o "nvidia") && (it || substrCI o "intel")) = true
          · have hd : detectLoop env nv it (cmd :: rest) =
                ((nv || substrCI o "nvidia", it || substrCI o "intel"), [cmd]) := by
              simp [detectLoop, ha, hr, ho, hb]
            refine ⟨1, ?_, ?_, ?_, ?_, ?_, ?_⟩
            · rw [hfil]
              exact Nat.succ_le_succ (Nat.zero_le _)
            · rw [hd, hfil]
              simp
            · rw [hd]
              simp [vendorFlag, hcn]
            · rw [hd]
              simp [vendorFlag, hci]
            · intro j hj
              have hj0 : j = 0 := by omega
              subst hj0
              simpa [vendorFlag] using h
            · intro _
              rw [hd]
              exact hb
          · have hb' : ((nv || substrCI o "nvidia") && (it || substrCI o "intel")) = false := by
              simpa using hb
            have hd : detectLoop env nv it (cmd :: rest) =
                ((detectLoop env (nv || substrCI o "nvidia") (it || substrCI o "intel") rest).1,
                  cmd :: (detectLoop env (nv || substrCI o "nvidia")
                    (it || substrCI o "intel") rest).2) := by
              simp [detectLoop, ha, hr, ho, hb']
            obtain ⟨k, h1, h2, h3, h4, h5, h6⟩ :=
              ih (nv || substrCI o "nvidia") (it || substrCI o "intel") hb'
            refine ⟨k + 1, ?_, ?_, ?_, ?_, ?_, ?_⟩
            · rw [hfil]
              exact Nat.succ_le_succ h1
            · rw [hd, hfil, List.take_succ_cons, h2]
            · rw [hd, h3]
              simp [vendorFlag, hcn, Bool.or_assoc]
            · rw [hd, h4]
              simp [vendorFlag, hci, Bool.or_assoc]
            · intro j hj
              cases j with
              | zero => simpa [vendorFlag] using h
              | succ j' =>
                have h5' := h5 j' (by omega)
                rw [hfil, List.take_succ_cons]
                simpa [vendorFlag, hcn, hci, Bool.or_assoc] using h5'
            · intro hk
              rw [hfil] at hk
              simp only [List.length_cons] at hk
              rw [hd]
              exact h6 (by omega)
    · have hfil : (cmd :: rest).filter (fun c => env.avail (cmdBin c)) =
          rest.filter (fun c => env.avail (cmdBin c)) := by
        simp [List.filter_cons, ha]
      have hd : detectLoop env nv it (cmd :: rest) = detectLoop env nv it rest := by
        simp [detectLoop, ha]
      obtain ⟨k, h1, h2, h3, h4, h5, h6⟩ := ih nv it h
      refine ⟨k, ?_, ?_, ?_, ?_, ?_, ?_⟩
      · rw [hfil]
        exact h1
      · rw [hd, hfil]
        exact h2
      · rw [hd]
        exact h3
      · rw [hd]
        exact h4
      · intro j hj
        rw [hfil]
        exact h5 j hj
      · intro hk
        rw [hfil] at hk
        rw [hd]
        exact h6 hk

/-- C6: the vendor-presence flags are true exactly when some executed
command contributed evidence (a truthy output whose lower-cased text
contains the vendor substring); the executed commands are a prefix of the
available detection commands in the fixed order lspci, lshw, glxinfo; no
strictly shorter prefix already had both flags true; and if not every
available command was executed, both flags are true. -/
theorem detect_gpus_spec (env : Env) :
    GPU_DETECTION_COMMANDS = [["lspci"], ["lshw", "-C", "display"], ["glxinfo", "-B"]] ∧
      ∃ k, k ≤ (availDetectCmds env).length ∧
        (detect_gpus env).2 = (availDetectCmds env).take k ∧
        (detect_gpus env).1.1 = vendorFlag env "nvidia" ((detect_gpus env).2) ∧
        (detect_gpus env).1.2 = vendorFlag env "intel" ((detect_gpus env).2) ∧
        (∀ j, j < k →
          (vendorFlag env "nvidia" ((availDetectCmds env).take j) &&
            vendorFlag env "intel" ((availDetectCmds env).take j)) = false) ∧
        (k < (availDetectCmds env).length →
          ((detect_gpus env).1.1 && (detect_gpus env).1.2) = true) := by
  refine ⟨rfl, ?_⟩
  obtain ⟨k, h1, h2, h3, h4, h5, h6⟩ :=
    detectLoop_spec env GPU_DETECTION_COMMANDS false false rfl
  refine ⟨k, h1, h2, ?_, ?_, ?_, h6⟩
  · simpa using h3
  · simpa using h4
  · intro j hj
    simpa using h5 j hj

/-- Witness for C6: on a concrete environment where no detection command is
available, the specification yields both flags false. -/
theorem detect_gpus_spec_witness :
    (detect_gpus envScenario2).1.1 = false ∧ (detect_gpus envScenario2).1.2 = false := by
  obtain ⟨-, k, -, h2, h3, h4, -, -⟩ := detect_gpus_spec envScenario2
  have hav : availDetectCmds envScenario2 = [] := by decide
  constructor
  · rw [h3, h2, hav, List.take_nil]
    decide
  · rw [h4, h2, hav, List.take_nil]
    decide

-- ---------------- Trace lemmas ----------------

lemma detectLoop_trace_sublist (env : Env) :
    ∀ (cmds : List (List String)) (nv it : Bool), (detectLoop env nv it cmds).2.Sublist cmds := by
  intro cmds
  induction cmds with
  | nil =>
    intro nv it
    simp [detectLoop]
  | cons cmd rest ih =>
    intro nv it
    by_cases ha : env.avail (cmdBin cmd) = true
    · cases hr : run_command env cmd with
      | none =>
        have hd : (detectLoop env nv it (cmd :: rest)).2 =
            cmd :: (detectLoop env nv it rest).2 := by
          simp [detectLoop, ha, hr]
        rw [hd]
        exact (ih nv it).cons₂ _
      | some o =>
        by_cases ho : strEmpty o = true
        · have hd : (detectLoop env nv it (cmd :: rest)).2 =
              cmd :: (detectLoop env nv it rest).2 := by
            simp [detectLoop, ha, hr, ho]
          rw [hd]
          exact (ih nv it).cons₂ _
        · by_cases hb : ((nv || substrCI o "nvidia") && (it || substrCI o "intel")) = true
          · have hd : (detectLoop env nv it (cmd :: rest)).2 = [cmd] := by
              simp [detectLoop, ha, hr, ho, hb]
            rw [hd]
            exact (List.nil_sublist rest).cons₂ _
          · have hb' : ((nv || substrCI o "nvidia") && (it || substrCI o "intel")) = false := by
              simpa using hb
            have hd : (detectLoop env nv it (cmd :: rest)).2 =
                cmd :: (detectLoop env (nv || substrCI o "nvidia")
                  (it || substrCI o "intel") rest).2 := by
              simp [detectLoop, ha, hr, ho, hb']
            rw [hd]
            exact (ih _ _).cons₂ _
    · have hd : detectLoop env nv it (cmd :: rest) = detectLoop env nv it rest := by
        simp [detectLoop, ha]
      rw [hd]
      exact (ih nv it).cons _

lemma pkgLoop_trace_sublist (env : Env) (pats : String → String) :
    ∀ l : List (String × List String), (pkgLoop env pats l).2.Sublist (l.map Prod.snd) := by
  intro l
  induction l with
  | nil => simp [pkgLoop]
  | cons p rest ih =>
    obtain ⟨pm, cmd⟩ := p
    by_cases ha : env.avail (cmdBin cmd) = true
    · have hd : (pkgLoop env pats ((pm, cmd) :: rest)).2 = cmd :: (pkgLoop env pats rest).2 := by
        simp [pkgLoop, ha]
      rw [hd, List.map_cons]
      exact ih.cons₂ _
    · have hd : pkgLoop env pats ((pm, cmd) :: rest) = pkgLoop env pats rest := by
        simp [pkgLoop, ha]
      rw [hd, List.map_cons]
      exact ih.cons _

lemma nvidiaSmiTrace_sublist (env : Env) :
    (nvidiaSmiTrace env).Sublist [["nvidia-smi"]] := by
  by_cases hs : env.avail "nvidia-smi" = true <;> simp [nvidiaSmiTrace, hs]

lemma check_nvidia_trace_sublist (loaded : List String) (env : Env) :
    (check_nvidia_driver loaded env).2.Sublist
      ([["nvidia-smi"]] ++ PACKAGE_MANAGERS.map Prod.snd) := by
  have hcases : (check_nvidia_driver loaded env).2 = nvidiaSmiTrace env ∨
      (check_nvidia_driver loaded env).2 =
        nvidiaSmiTrace env ++ (check_packages env NVIDIA_PACKAGE_PATTERNS).2 := by
    by_cases hp : found_proprietary loaded = [] <;>
      by_cases hn : found_nouveau loaded = [] <;>
        by_cases hs : nvidiaSmiPasses env = true <;>
          simp [check_nvidia_driver, hp, hn, hs]
  rcases hcases with h | h <;> rw [h]
  · exact (nvidiaSmiTrace_sublist env).trans (List.sublist_append_left _ _)
  · exact (nvidiaSmiTrace_sublist env).append (pkgLoop_trace_sublist env _ _)

lemma check_intel_trace_sublist (loaded : List String) (env : Env) :
    (check_intel_driver loaded env).2.Sublist (PACKAGE_MANAGERS.map Prod.snd) := by
  have h : (check_intel_driver loaded env).2 =
      (check_packages env INTEL_PACKAGE_PATTERNS).2 := by
    simp [check_intel_driver]
  rw [h]
  exact pkgLoop_trace_sublist env _ _

lemma get_loaded_trace (env : Env) :
    (get_loaded_kernel_modules env).2 = [["lsmod"]] := by
  unfold get_loaded_kernel_modules
  cases run_command env ["lsmod"] with
  | none => rfl
  | some s =>
    by_cases hs : strEmpty s = true <;> simp [hs]

/-- Every argv vector `main` can ever pass to `run_command`, with the
multiplicity the program structure allows (package-manager listings appear
once for the NVIDIA fallback and once for the Intel check). -/
def ALL_RUN_COMMANDS : List (List String) :=
  GPU_DETECTION_COMMANDS ++ [["lsmod"]] ++
    ([["nvidia-smi"]] ++ PACKAGE_MANAGERS.map Prod.snd) ++ PACKAGE_MANAGERS.map Prod.snd

lemma main_trace_sublist (env : Env) (out : List String) (tr : List (List String))
    (h : mainResult env = some (out, tr)) : tr.Sublist ALL_RUN_COMMANDS := by
  unfold mainResult at h
  by_cases hreq : REQUIRED_COMMANDS.all env.avail = true
  · simp only [hreq, if_true] at h
    cases hg : (get_loaded_kernel_modules env).1 with
    | none => simp [hg] at h
    | some mods =>
      simp only [hg] at h
      have htr := congrArg (fun p => p.2) (Option.some.inj h)
      simp only at htr
      rw [← htr]
      have h1 : (detect_gpus env).2.Sublist GPU_DETECTION_COMMANDS :=
        detectLoop_trace_sublist env GPU_DETECTION_COMMANDS false false
      have h2 : (get_loaded_kernel_modules env).2.Sublist [["lsmod"]] := by
        rw [get_loaded_trace]
      have h3 : (if (detect_gpus env).1.1 then
            (print_results true (check_nvidia_driver mods env).1 "nvidia" ++ [""],
              (check_nvidia_driver mods env).2)
          else ([], [])).2.Sublist ([["nvidia-smi"]] ++ PACKAGE_MANAGERS.map Prod.snd) := by
        by_cases hf : (detect_gpus env).1.1 = true
        · simpa [hf] using check_nvidia_trace_sublist mods env
        · simp [hf]
      have h4 : (if (detect_gpus env).1.2 then
            (print_results true (check_intel_driver mods env).1 "intel" ++ [""],
              (check_intel_driver mods env).2)
          else ([], [])).2.Sublist (PACKAGE_MANAGERS.map Prod.snd) := by
        by_cases hf : (detect_gpus env).1.2 = true
        · simpa [hf] using check_intel_trace_sublist mods env
        · simp [hf]
      exact ((h1.append h2).append h3).append h4
  · simp only [hreq, Bool.false_eq_true, if_false] at h
    have htr := congrArg (fun p => p.2) (Option.some.inj h)
    simp only at htr
    rw [← htr]
    exact List.nil_sublist _

lemma ALL_RUN_COMMANDS_count_le_two (c : List String) : ALL_RUN_COMMANDS.count c ≤ 2 := by
  by_cases hc : c ∈ ALL_RUN_COMMANDS
  · rw [show ALL_RUN_COMMANDS =
        [["lspci"], ["lshw", "-C", "display"], ["glxinfo", "-B"], ["lsmod"], ["nvidia-smi"],
         ["dpkg", "-l"], ["rpm", "-qa"], ["pacman", "-Q"], ["zypper", "se", "-i"],
         ["dpkg", "-l"], ["rpm", "-qa"], ["pacman", "-Q"], ["zypper", "se", "-i"]] from by decide]
      at hc
    simp only [List.mem_cons, List.not_mem_nil, or_false] at hc
    rcases hc with rfl | rfl | rfl | rfl | rfl | rfl | rfl | rfl | rfl | rfl | rfl | rfl | rfl <;>
      decide
  · rw [List.count_eq_zero_of_not_mem hc]
    omega

/-- The environment of the C9 counterexample: both vendors visible in the
lspci output, dpkg present, no modules loaded. -/
def envC9 : Env :=
  ⟨fun s => s == "lspci" || s == "lsmod" || s == "dpkg",
   fun c =>
     if c == ["lspci"] then some "01:00.0 NVIDIA Corporation; 00:02.0 Intel Corporation"
     else if c == ["lsmod"] then some "Module Size Used by"
     else none⟩

/-- C9 counterexample: in one run with both vendors detected and neither
driver installed, the dpkg listing command is executed twice — once for the
NVIDIA package fallback and once for the Intel package check. -/
theorem commands_run_counterexample :
    (mainResult envC9).isSome = true ∧
      ((mainResult envC9).map (fun p => p.2.count ["dpkg", "-l"])).getD 0 = 2 := by
  constructor <;> decide

/-- C9 (amended): every external command is executed at most twice in a
run, and every command other than a package-manager listing is executed at
most once; a package-manager listing can run once per vendor (the NVIDIA
fallback and the Intel check do not share the result). -/
theorem commands_run_at_most_twice (env : Env) (out : List String) (tr : List (List String))
    (h : mainResult env = some (out, tr)) (c : List String) :
    tr.count c ≤ 2 ∧ (c ∉ PACKAGE_MANAGERS.map Prod.snd → tr.count c ≤ 1) := by
  have hsub := main_trace_sublist env out tr h
  constructor
  · exact (hsub.count_le c).trans (ALL_RUN_COMMANDS_count_le_two c)
  · intro hcpm
    have hp : (fun x => decide (x ∉ PACKAGE_MANAGERS.map Prod.snd)) c = true := by
      simpa using hcpm
    have hf := hsub.filter (fun x => decide (x ∉ PACKAGE_MANAGERS.map Prod.snd))
    have hall : ALL_RUN_COMMANDS.filter (fun x => decide (x ∉ PACKAGE_MANAGERS.map Prod.snd)) =
        [["lspci"], ["lshw", "-C", "display"], ["glxinfo", "-B"], ["lsmod"], ["nvidia-smi"]] := by
      decide
    rw [hall] at hf
    have heq : (tr.filter (fun x => decide (x ∉ PACKAGE_MANAGERS.map Prod.snd))).count c =
        tr.count c := List.count_filter hp
    rw [← heq]
    refine (hf.count_le c).trans ?_
    by_cases hc : c ∈ ([[("lspci" : String)], ["lshw", "-C", "display"], ["glxinfo", "-B"],
        ["lsmod"], ["nvidia-smi"]] : List (List String))
    · simp only [List.mem_cons, List.not_mem_nil, or_false] at hc
      rcases hc with rfl | rfl | rfl | rfl | rfl <;> decide
    · rw [List.count_eq_zero_of_not_mem hc]
      omega

/-- Witness for C9 (amended) on the concrete run of the counterexample
environment: the bound of two holds there. -/
theorem commands_run_at_most_twice_witness :
    ([[("lspci" : String)], ["lsmod"], ["dpkg", "-l"], ["dpkg", "-l"]].count ["dpkg", "-l"] ≤ 2) :=
  (commands_run_at_most_twice envC9
    ["\nLinux GPU & Driver Detection Utility", "========================================", "",
     "----- NVIDIA GPU -----", "Detection: NVIDIA hardware found.",
     "Driver Status: No active NVIDIA driver detected.",
     "  -> Consider installing the appropriate drivers for your distribution.", "",
     "----- INTEL GPU -----", "Detection: INTEL hardware found.",
     "Driver Status: No active INTEL driver detected.",
     "  -> Consider installing the appropriate drivers for your distribution.", ""]
    [["lspci"], ["lsmod"], ["dpkg", "-l"], ["dpkg", "-l"]]
    (by decide) ["dpkg", "-l"]).1

-- ---------------- Output-shape lemmas ----------------

lemma check_intel_type_none (loaded : List String) (env : Env) :
    (check_intel_driver loaded env).1.type = none := by
  by_cases hi : found_intel loaded = [] <;>
    by_cases hk : (check_packages env INTEL_PACKAGE_PATTERNS).1 = [] <;>
      simp [check_intel_driver, hi, hk]

lemma head_data_append (a b : String) (c : Char) (h : a.data.head? = some c) :
    (a ++ b).data.head? = some c := by
  cases a with
  | mk l =>
    cases l with
    | nil => simp at h
    | cons x xs =>
      cases b with
      | mk m =>
        have hd : (String.mk (x :: xs) ++ String.mk m).data = x :: (xs ++ m) := rfl
        rw [hd]
        simpa using h

/-- The fixed lines a run with undetected NVIDIA hardware can print; every
other printed line starts with a space. -/
def C8_FIXED_LINES : List String :=
  [TITLE_LINE, EQ_LINE, "",
   "----- INTEL GPU -----",
   "Detection: INTEL hardware found.",
   "Driver Status: Open-source intel driver detected.",
   "Driver Status: No active INTEL driver detected.",
   "  -> Consider installing the appropriate drivers for your distribution.",
   "Warning: Could not detect any supported GPU hardware (NVIDIA, Intel).",
   "This may be due to missing optional utilities (lshw, glxinfo) or an unsupported GPU.",
   "\nAborting: Missing one or more required system utilities."]

lemma print_results_intel_shape (info : DriverRecord) (hty : info.type = none) :
    ∀ l ∈ print_results true info "intel",
      l ∈ C8_FIXED_LINES ∨ l.data.head? = some ' ' := by
  intro l hl
  simp only [print_results, hty, Bool.not_true, Bool.false_eq_true, if_false,
    Option.getD_none, List.mem_cons] at hl
  rcases hl with rfl | rfl | hl
  · exact Or.inl (by decide)
  · exact Or.inl (by decide)
  · by_cases hinst : info.installed = true
    · simp only [hinst, if_true, List.mem_cons, List.mem_append] at hl
      rcases hl with rfl | hl
      · exact Or.inl (by decide)
      · rcases hl with hl | hl
        · by_cases hm : info.modules_loaded.isEmpty = true
          · simp [hm] at hl
          · simp only [hm, Bool.false_eq_true, if_false, List.mem_singleton] at hl
            subst hl
            exact Or.inr (head_data_append _ _ _ (by decide))
        · by_cases hp : info.packages.isEmpty = true
          · simp [hp] at hl
          · simp only [hp, Bool.false_eq_true, if_false, List.mem_singleton] at hl
            subst hl
            exact Or.inr (head_data_append _ _ _ (by decide))
    · simp only [hinst, Bool.false_eq_true, if_false, List.mem_cons, List.mem_singleton,
        List.not_mem_nil, or_false] at hl
      rcases hl with rfl | rfl
      · exact Or.inl (by decide)
      · exact Or.inl (by decide)

lemma main_output_shape (env : Env) (out : List String) (tr : List (List String))
    (h : mainResult env = some (out, tr)) (hnv : (detect_gpus env).1.1 = false) :
    ∀ l ∈ out, l ∈ C8_FIXED_LINES ∨ l.data.head? = some ' ' := by
  unfold mainResult at h
  by_cases hreq : REQUIRED_COMMANDS.all env.avail = true
  · simp only [hreq, if_true] at h
    cases hg : (get_loaded_kernel_modules env).1 with
    | none => simp [hg] at h
    | some mods =>
      simp only [hg, hnv, Bool.false_eq_true, if_false, Bool.false_or] at h
      have hout := congrArg Prod.fst (Option.some.inj h)
      simp only at hout
      rw [← hout]
      intro l hl
      simp only [List.nil_append, List.append_assoc, List.mem_cons, List.mem_append,
        List.not_mem_nil, or_false] at hl
      rcases hl with (rfl | rfl | rfl) | hl | hl
      · exact Or.inl (by decide)
      · exact Or.inl (by decide)
      · exact Or.inl (by decide)
      · by_cases hit : (detect_gpus env).1.2 = true
        · simp only [hit, if_true, List.mem_append, List.mem_singleton] at hl
          rcases hl with hl | rfl
          · exact print_results_intel_shape _ (check_intel_type_none mods env) l hl
          · exact Or.inl (by decide)
        · simp [hit] at hl
      · by_cases hit : (detect_gpus env).1.2 = true
        · simp [hit] at hl
        · simp only [hit, Bool.false_eq_true, if_false, List.mem_cons, List.mem_singleton,
            List.not_mem_nil, or_false] at hl
          rcases hl with rfl | rfl
          · exact Or.inl (by decide)
          · exact Or.inl (by decide)
  · simp only [hreq, Bool.false_eq_true, if_false] at h
    have hout := congrArg Prod.fst (Option.some.inj h)
    simp only at hout
    rw [← hout]
    intro l hl
    simp only [List.mem_cons, List.not_mem_nil, or_false] at hl
    rcases hl with rfl | rfl | rfl
    · exact Or.inl (by decide)
    · exact Or.inl (by decide)
    · exact Or.inl (by decide)

/-- The environment of the C8 counterexample: Intel hardware visible,
NVIDIA hardware not. -/
def envC8 : Env :=
  ⟨fun s => s == "lspci" || s == "lsmod",
   fun c =>
     if c == ["lspci"] then
       some "00:02.0 VGA compatible controller: Intel Corporation UHD Graphics"
     else if c == ["lsmod"] then some "Module Size Used by\ni915 100 2"
     else none⟩

/-- C8 counterexample: with exactly one vendor (Intel) detected, the run's
output contains no "hardware not found" line for NVIDIA — `main` only ever
calls `print_results` with `gpu_detected=True`. -/
theorem no_not_found_line_counterexample :
    (detect_gpus envC8).1.1 = false ∧ (detect_gpus envC8).1.2 = true ∧
      (mainResult envC8).isSome = true ∧
      "Detection: NVIDIA hardware not found." ∉ ((mainResult envC8).map Prod.fst).getD [] := by
  exact ⟨by decide, by decide, by decide, by decide⟩


lemma check_nvidia_type_cases (loaded : List String) (env : Env) :
    (check_nvidia_driver loaded env).1.type = none ∨
      (check_nvidia_driver loaded env).1.type = some "proprietary NVIDIA" ∨
      (check_nvidia_driver loaded env).1.type = some "nouveau (open-source)" ∨
      (check_nvidia_driver loaded env).1.type = some "proprietary NVIDIA (inactive)" := by
  by_cases hp : found_proprietary loaded = [] <;>
    by_cases hn : found_nouveau loaded = [] <;>
      by_cases hs : nvidiaSmiPasses env = true <;>
        by_cases hk : (check_packages env NVIDIA_PACKAGE_PATTERNS).1 = [] <;>
          simp [check_nvidia_driver, hp, hn, hs, hk]

/-- The fixed lines a run with undetected Intel hardware can print; every
other printed line starts with a space. -/
def C8_NV_FIXED_LINES : List String :=
  [TITLE_LINE, EQ_LINE, "",
   "----- NVIDIA GPU -----",
   "Detection: NVIDIA hardware found.",
   "Driver Status: Proprietary nvidia driver detected.",
   "Driver Status: Nouveau (open-source) driver detected.",
   "Driver Status: Proprietary nvidia (inactive) driver detected.",
   "Driver Status: Open-source nvidia driver detected.",
   "Driver Status: No active NVIDIA driver detected.",
   "  -> Consider installing the appropriate drivers for your distribution.",
   "Warning: Could not detect any supported GPU hardware (NVIDIA, Intel).",
   "This may be due to missing optional utilities (lshw, glxinfo) or an unsupported GPU.",
   "\nAborting: Missing one or more required system utilities."]

lemma print_results_nvidia_shape (info : DriverRecord)
    (hty : info.type = none ∨ info.type = some "proprietary NVIDIA" ∨
      info.type = some "nouveau (open-source)" ∨
      info.type = some "proprietary NVIDIA (inactive)") :
    ∀ l ∈ print_results true info "nvidia",
      l ∈ C8_NV_FIXED_LINES ∨ l.data.head? = some ' ' := by
  intro l hl
  simp only [print_results, Bool.not_true, Bool.false_eq_true, if_false, List.mem_cons] at hl
  rcases hl with rfl | rfl | hl
  · exact Or.inl (by decide)
  · exact Or.inl (by decide)
  · by_cases hinst : info.installed = true
    · simp only [hinst, if_true, List.mem_cons, List.mem_append] at hl
      rcases hl with rfl | hl
      · rcases hty with hty | hty | hty | hty <;> rw [hty] <;> exact Or.inl (by decide)
      · rcases hl with hl | hl
        · by_cases hm : info.modules_loaded.isEmpty = true
          · simp [hm] at hl
          · simp only [hm, Bool.false_eq_true, if_false, List.mem_singleton] at hl
            subst hl
            exact Or.inr (head_data_append _ _ _ (by decide))
        · by_cases hp : info.packages.isEmpty = true
          · simp [hp] at hl
          · simp only [hp, Bool.false_eq_true, if_false, List.mem_singleton] at hl
            subst hl
            exact Or.inr (head_data_append _ _ _ (by decide))
    · simp only [hinst, Bool.false_eq_true, if_false, List.mem_cons, List.mem_singleton,
        List.not_mem_nil, or_false] at hl
      rcases hl with rfl | rfl
      · exact Or.inl (by decide)
      · exact Or.inl (by decide)

lemma main_output_shape_intel (env : Env) (out : List String) (tr : List (List String))
    (h : mainResult env = some (out, tr)) (hit : (detect_gpus env).1.2 = false) :
    ∀ l ∈ out, l ∈ C8_NV_FIXED_LINES ∨ l.data.head? = some ' ' := by
  unfold mainResult at h
  by_cases hreq : REQUIRED_COMMANDS.all env.avail = true
  · simp only [hreq, if_true] at h
    cases hg : (get_loaded_kernel_modules env).1 with
    | none => simp [hg] at h
    | some mods =>
      simp only [hg, hit, Bool.false_eq_true, if_false, Bool.or_false] at h
      have hout := congrArg Prod.fst (Option.some.inj h)
      simp only at hout
      rw [← hout]
      intro l hl
      simp only [List.append_nil, List.append_assoc, List.mem_cons, List.mem_append,
        List.not_mem_nil, or_false] at hl
      rcases hl with (rfl | rfl | rfl) | hl | hl
      · exact Or.inl (by decide)
      · exact Or.inl (by decide)
      · exact Or.inl (by decide)
      · by_cases hnvf : (detect_gpus env).1.1 = true
        · simp only [hnvf, if_true, List.mem_append, List.mem_singleton] at hl
          rcases hl with hl | rfl
          · exact print_results_nvidia_shape _ (check_nvidia_type_cases mods env) l hl
          · exact Or.inl (by decide)
        · simp [hnvf] at hl
      · by_cases hnvf : (detect_gpus env).1.1 = true
        · simp [hnvf] at hl
        · simp only [hnvf, Bool.false_eq_true, if_false, List.mem_cons, List.mem_singleton,
            List.not_mem_nil, or_false] at hl
          rcases hl with rfl | rfl
          · exact Or.inl (by decide)
          · exact Or.inl (by decide)
  · simp only [hreq, Bool.false_eq_true, if_false] at h
    have hout := congrArg Prod.fst (Option.some.inj h)
    simp only at hout
    rw [← hout]
    intro l hl
    simp only [List.mem_cons, List.not_mem_nil, or_false] at hl
    rcases hl with rfl | rfl | rfl
    · exact Or.inl (by decide)
    · exact Or.inl (by decide)
    · exact Or.inl (by decide)

/-- C8 (amended): when hardware is not detected for a vendor, no driver
checks run for that vendor and the run's output contains no section for
that vendor at all — in particular no "hardware not found" line. With
NVIDIA undetected, `nvidia-smi` is never executed and no NVIDIA line is
printed; with Intel undetected, the whole trace fits the NVIDIA-side
command set (so no Intel package query is made) and no INTEL line is
printed. `print_results` does emit the not-found line for either vendor
when called with `gpu_detected=false`, but `main` never calls it that
way. -/
theorem undetected_vendor_no_section (env : Env) (out : List String) (tr : List (List String))
    (h : mainResult env = some (out, tr)) :
    ((detect_gpus env).1.1 = false →
      ["nvidia-smi"] ∉ tr ∧
        "----- NVIDIA GPU -----" ∉ out ∧
        "Detection: NVIDIA hardware not found." ∉ out) ∧
      ((detect_gpus env).1.2 = false →
        tr.Sublist (GPU_DETECTION_COMMANDS ++ [["lsmod"]] ++
          ([["nvidia-smi"]] ++ PACKAGE_MANAGERS.map Prod.snd)) ∧
          "----- INTEL GPU -----" ∉ out ∧
          "Detection: INTEL hardware not found." ∉ out) ∧
      (∀ info : DriverRecord,
        "Detection: NVIDIA hardware not found." ∈ print_results false info "nvidia" ∧
          "Detection: INTEL hardware not found." ∈ print_results false info "intel") := by
  refine ⟨?_, ?_, ?_⟩
  · intro hnv
    refine ⟨?_, ?_, ?_⟩
    · have htr : tr.Sublist
          (GPU_DETECTION_COMMANDS ++ [["lsmod"]] ++ ([] : List (List String)) ++
            PACKAGE_MANAGERS.map Prod.snd) := by
        unfold mainResult at h
        by_cases hreq : REQUIRED_COMMANDS.all env.avail = true
        · simp only [hreq, if_true] at h
          cases hg : (get_loaded_kernel_modules env).1 with
          | none => simp [hg] at h
          | some mods =>
            simp only [hg, hnv, Bool.false_eq_true, if_false, Bool.false_or] at h
            have htr' := congrArg Prod.snd (Option.some.inj h)
            simp only at htr'
            rw [← htr']
            have h1 : (detect_gpus env).2.Sublist GPU_DETECTION_COMMANDS :=
              detectLoop_trace_sublist env GPU_DETECTION_COMMANDS false false
            have h2 : (get_loaded_kernel_modules env).2.Sublist [["lsmod"]] := by
              rw [get_loaded_trace]
            have h4 : (if (detect_gpus env).1.2 then
                  (print_results true (check_intel_driver mods env).1 "intel" ++ [""],
                    (check_intel_driver mods env).2)
                else ([], [])).2.Sublist (PACKAGE_MANAGERS.map Prod.snd) := by
              by_cases hf : (detect_gpus env).1.2 = true
              · simpa [hf] using check_intel_trace_sublist mods env
              · simp [hf]
            exact ((h1.append h2).append (List.Sublist.refl [])).append h4
        · simp only [hreq, Bool.false_eq_true, if_false] at h
          have htr' := congrArg Prod.snd (Option.some.inj h)
          simp only at htr'
          rw [← htr']
          exact List.nil_sublist _
      intro hcontra
      exact absurd (htr.subset hcontra) (by decide)
    · intro hcontra
      rcases main_output_shape env out tr h hnv _ hcontra with hfix | hhead
      · exact absurd hfix (by decide)
      · exact absurd hhead (by decide)
    · intro hcontra
      rcases main_output_shape env out tr h hnv _ hcontra with hfix | hhead
      · exact absurd hfix (by decide)
      · exact absurd hhead (by decide)
  · intro hit
    refine ⟨?_, ?_, ?_⟩
    · unfold mainResult at h
      by_cases hreq : REQUIRED_COMMANDS.all env.avail = true
      · simp only [hreq, if_true] at h
        cases hg : (get_loaded_kernel_modules env).1 with
        | none => simp [hg] at h
        | some mods =>
          simp only [hg, hit, Bool.false_eq_true, if_false, Bool.or_false] at h
          have htr' := congrArg Prod.snd (Option.some.inj h)
          simp only at htr'
          rw [← htr']
          have h1 : (detect_gpus env).2.Sublist GPU_DETECTION_COMMANDS :=
            detectLoop_trace_sublist env GPU_DETECTION_COMMANDS false false
          have h2 : (get_loaded_kernel_modules env).2.Sublist [["lsmod"]] := by
            rw [get_loaded_trace]
          have h3 : (if (detect_gpus env).1.1 then
                (print_results true (check_nvidia_driver mods env).1 "nvidia" ++ [""],
                  (check_nvidia_driver mods env).2)
              else ([], [])).2.Sublist ([["nvidia-smi"]] ++ PACKAGE_MANAGERS.map Prod.snd) := by
            by_cases hf : (detect_gpus env).1.1 = true
            · simpa [hf] using check_nvidia_trace_sublist mods env
            · simp [hf]
          simpa using ((h1.append h2).append h3).append (List.Sublist.refl [])
      · simp only [hreq, Bool.false_eq_true, if_false] at h
        have htr' := congrArg Prod.snd (Option.some.inj h)
        simp only at htr'
        rw [← htr']
        exact List.nil_sublist _
    · intro hcontra
      rcases main_output_shape_intel env out tr h hit _ hcontra with hfix | hhead
      · exact absurd hfix (by decide)
      · exact absurd hhead (by decide)
    · intro hcontra
      rcases main_output_shape_intel env out tr h hit _ hcontra with hfix | hhead
      · exact absurd hfix (by decide)
      · exact absurd hhead (by decide)
  · intro info
    constructor
    · have hpr : print_results false info "nvidia" =
          ["----- NVIDIA GPU -----", "Detection: NVIDIA hardware not found."] := rfl
      rw [hpr]
      decide
    · have hpr : print_results false info "intel" =
          ["----- INTEL GPU -----", "Detection: INTEL hardware not found."] := rfl
      rw [hpr]
      decide

/-- The environment of the C8 witness's second conjunct: NVIDIA hardware
visible, Intel hardware not. -/
def envC8nv : Env :=
  ⟨fun s => s == "lspci" || s == "lsmod",
   fun c =>
     if c == ["lspci"] then some "01:00.0 VGA compatible controller: NVIDIA Corporation GPU"
     else if c == ["lsmod"] then some "Module Size Used by\nnvidia 1 0"
     else none⟩

/-- Witness for C8 (amended): both directions at concrete single-vendor
environments. -/
theorem undetected_vendor_no_section_witness :
    ("----- NVIDIA GPU -----" ∉ ((mainResult envC8).map Prod.fst).getD []) ∧
      ("----- INTEL GPU -----" ∉ ((mainResult envC8nv).map Prod.fst).getD []) := by
  constructor
  · have h := undetected_vendor_no_section envC8
      (((mainResult envC8).map Prod.fst).getD [])
      (((mainResult envC8).map Prod.snd).getD []) (by decide)
    exact (h.1 (by decide)).2.1
  · have h := undetected_vendor_no_section envC8nv
      (((mainResult envC8nv).map Prod.fst).getD [])
      (((mainResult envC8nv).map Prod.snd).getD []) (by decide)
    exact (h.2.1 (by decide)).2.1
